import Mathlib

/-!
A verification development for the cquill migration engine (Rust sources
`src/keyspace.rs` and `src/lib.rs`): a shallow embedding of the replication
parser, the history-store bootstrap and the default resolution of
`migrate_cql`, together with theorems settling the specification's claims.

Strings are modelled at the level of their character lists; the string
primitives used by the Rust code (`str::trim`, `str::trim_matches`,
`str::split`) are embedded as structural functions on `List Char`.  The
model restricts `char::is_whitespace` and the regex class `\d` to their
ASCII fragments, which is where all inputs of interest live.
-/

deriving instance DecidableEq for Except

namespace Cquill

/-- Drop matching characters from the end of a list (the second half of
Rust's two-sided trimming). -/
def dropWhileEnd (p : Char → Bool) (l : List Char) : List Char :=
  (l.reverse.dropWhile p).reverse

/-- The Unicode White_Space code points, as closed code-point ranges: the
set Rust `char::is_whitespace` tests. -/
def white_space_ranges : List (Nat × Nat) :=
  [(9, 13), (32, 32), (133, 133), (160, 160), (5760, 5760), (8192, 8202),
   (8232, 8233), (8239, 8239), (8287, 8287), (12288, 12288)]

/-- Embeds Rust `char::is_whitespace` (the Unicode White_Space property). -/
def is_rust_whitespace (c : Char) : Bool :=
  white_space_ranges.any (fun r => r.1 ≤ c.toNat && c.toNat ≤ r.2)

/-- Embeds Rust `str::trim`: White_Space removed from both ends. -/
def rust_trim (s : String) : String :=
  String.mk (dropWhileEnd is_rust_whitespace (s.data.dropWhile is_rust_whitespace))

/-- Embeds Rust `str::trim_matches(c)`: all leading and trailing
occurrences of the character `c` removed. -/
def trim_matches (c : Char) (s : String) : String :=
  String.mk (dropWhileEnd (fun x => x == c) (s.data.dropWhile (fun x => x == c)))

/-- Embeds Rust `str::split(c)` on a character list: the pieces between
occurrences of `c`.  Like Rust's `Split`, the result is never empty and an
empty input yields one empty piece. -/
def split_char (c : Char) : List Char → List (List Char)
  | [] => [[]]
  | x :: xs =>
    let r := split_char c xs
    if x == c then [] :: r else (x :: r.headI) :: r.tail

/-- `str::split` lifted to strings. -/
def split_str (c : Char) (s : String) : List String :=
  (split_char c s.data).map String.mk

/-- One step of Rust `u8::from_str`'s digit loop: consume ASCII digits,
accumulating with checked arithmetic (any intermediate value above 255 is
an overflow error, any non-digit an invalid-digit error). -/
def parse_u8_digits : List Char → Nat → Option Nat
  | [], acc => some acc
  | c :: cs, acc =>
    if c.isDigit then
      let acc' := acc * 10 + (c.toNat - 48)
      if acc' ≤ 255 then parse_u8_digits cs acc' else none
    else none

/-- Embeds Rust `str::parse::<u8>` (`u8::from_str`): an optional leading
`+` sign followed by at least one ASCII digit, denoting a value at most
255.  An empty string, a bare sign, a stray character or an overflow all
fail. -/
def parse_u8 (s : String) : Option Nat :=
  match s.data with
  | [] => none
  | c :: rest =>
    if c == '+' then
      if rest.isEmpty then none else parse_u8_digits rest 0
    else
      parse_u8_digits (c :: rest) 0

/-- `src/keyspace.rs` line 8: the canonical default replication text. -/
def REPLICATION : String := "\x7b 'class': 'SimpleStrategy', 'replication_factor': 1 \x7d"

/-- `src/keyspace.rs` lines 29-39: the parsed replication configuration. -/
inductive ReplicationFactor where
  | NetworkTopologyStrategy (datacenter_factors : List (String × Nat))
  | SimpleStrategy (factor : Nat)
deriving DecidableEq

/-- `src/keyspace.rs` lines 60-64, the `next_from_key_value_split` closure's
post-processing of one split piece: trim whitespace, then trim double
quotes, then trim single quotes. -/
def clean_token (s : String) : String :=
  trim_matches '\'' (trim_matches '"' (rust_trim s))

/-- `src/keyspace.rs` lines 56-81: the field-collection loop.  Each comma
segment is split on `':'`; the first piece becomes the key and the second
the value (both cleaned), any further pieces being left behind in the
iterator; a segment without both pieces is an error, as is a repeated key.
The `HashMap` is modelled as an association list in insertion order. -/
def collect_fields : List String → List (String × String) → Except String (List (String × String))
  | [], fields => Except.ok fields
  | value_pair :: rest, fields =>
    let key_value_split := split_str ':' value_pair
    match key_value_split[0]?, key_value_split[1]? with
    | some k, some v =>
      let key := clean_token k
      let value := clean_token v
      if (fields.lookup key).isSome then
        Except.error ("replication object duplicates key-value pair " ++ key)
      else
        collect_fields rest (fields ++ [(key, value)])
    | _, _ => Except.error "not a valid key-value pair in keyspace replication object"

/-- The Unicode Nd (decimal number) general category as closed code-point
ranges (Unicode 15.0): the class the regex crate's Unicode-aware `\d`
matches by default.  Adjacent Unicode versions move only a couple of
ranges for newly encoded scripts. -/
def nd_ranges : List (Nat × Nat) :=
  [(48, 57), (1632, 1641), (1776, 1785), (1984, 1993), (2406, 2415), (2534, 2543),
   (2662, 2671), (2790, 2799), (2918, 2927), (3046, 3055), (3174, 3183), (3302, 3311),
   (3430, 3439), (3558, 3567), (3664, 3673), (3792, 3801), (3872, 3881), (4160, 4169),
   (4240, 4249), (6112, 6121), (6160, 6169), (6470, 6479), (6608, 6617), (6784, 6793),
   (6800, 6809), (6992, 7001), (7088, 7097), (7232, 7241), (7248, 7257), (42528, 42537),
   (43216, 43225), (43264, 43273), (43472, 43481), (43504, 43513), (43600, 43609),
   (44016, 44025), (65296, 65305), (66720, 66729), (68912, 68921), (69734, 69743),
   (69872, 69881), (69942, 69951), (70096, 70105), (70384, 70393), (70736, 70745),
   (70864, 70873), (71248, 71257), (71360, 71369), (71472, 71481), (71904, 71913),
   (72016, 72025), (72784, 72793), (73040, 73049), (73120, 73129), (73552, 73561),
   (92768, 92777), (92864, 92873), (93008, 93017), (120782, 120831), (123200, 123209),
   (123632, 123641), (124144, 124153), (125264, 125273), (130032, 130041)]

/-- A Unicode decimal digit: what the regex crate's `\d` matches in its
default Unicode mode. -/
def is_unicode_digit (c : Char) : Bool :=
  nd_ranges.any (fun r => r.1 ≤ c.toNat && c.toNat ≤ r.2)

/-- `src/keyspace.rs` lines 90-93: `DATACENTER_REGEX`, the regex
`^[a-z\d_]{2,}$`: at least two characters, each a lowercase ASCII letter,
a Unicode decimal digit (the regex crate's `\d` is Unicode-aware by
default) or an underscore. -/
def DATACENTER_REGEX_match (s : String) : Bool :=
  decide (2 ≤ s.data.length)
    && s.data.all (fun c => c.isLower || is_unicode_digit c || c == '_')

/-- The pattern claim C5 states: `^[a-z0-9_]{2,}$`, with ASCII digits
only. -/
def ascii_datacenter_pattern (s : String) : Bool :=
  decide (2 ≤ s.data.length) && s.data.all (fun c => c.isLower || c.isDigit || c == '_')

/-- `src/keyspace.rs` lines 94-104: the `NetworkTopologyStrategy` loop over
the remaining fields.  Each datacenter name is checked against
`DATACENTER_REGEX` before its factor is parsed as a `u8`; the first failing
entry aborts with its error.  `HashMap` iteration order is modelled as
insertion order. -/
def datacenter_factors_loop : List (String × String) → Except String (List (String × Nat))
  | [] => Except.ok []
  | (datacenter, factor_string) :: rest =>
    if DATACENTER_REGEX_match datacenter then
      match parse_u8 factor_string with
      | some factor =>
        (datacenter_factors_loop rest).map (fun dfs => (datacenter, factor) :: dfs)
      | none =>
        Except.error ("replication factor " ++ datacenter ++ " for datacenter "
          ++ factor_string ++ " must be a number")
    else
      Except.error ("datacenter " ++ datacenter ++ " is not a valid name")

/-- `src/keyspace.rs` lines 84-121: dispatch on the `class` value, the
`class` binding already removed from `fields`. -/
def class_dispatch (replication_class : String) (fields : List (String × String)) :
    Except String ReplicationFactor :=
  if replication_class == "NetworkTopologyStrategy" then
    if fields.isEmpty then
      Except.error "network replication must specify at least one datacenter's replication factor"
    else
      (datacenter_factors_loop fields).map
        (fun dfs => ReplicationFactor.NetworkTopologyStrategy dfs)
  else if replication_class == "SimpleStrategy" then
    match fields.lookup "replication_factor" with
    | some factor_string =>
      match parse_u8 factor_string with
      | some factor => Except.ok (ReplicationFactor.SimpleStrategy factor)
      | none => Except.error ("replication factor " ++ factor_string ++ " must be a number")
    | none => Except.error "replication object missing replication_factor field"
  else
    Except.error ("replication class " ++ replication_class ++ " field is an unsupported type")

/-- `src/keyspace.rs` lines 82-122: require the `class` key, remove it and
dispatch on its value. -/
def dispatch_fields (fields : List (String × String)) : Except String ReplicationFactor :=
  match fields.lookup "class" with
  | none => Except.error "replication object missing class field"
  | some replication_class =>
    class_dispatch replication_class (fields.filter (fun p => p.1 != "class"))

/-- The body between the braces of the trimmed input
(`trimmed[1..trimmed.len() - 1]` for its ASCII inputs). -/
def strip_braces (trimmed : String) : String :=
  String.mk ((trimmed.data.drop 1).dropLast)

/-- `src/keyspace.rs` lines 47-123: `ReplicationFactor::from_str`.  The
canonical default is short-circuited; otherwise the trimmed input must be
brace-wrapped, its body is split on commas into key-value fields, and the
fields are dispatched on their `class`. -/
def from_str (s : String) : Except String ReplicationFactor :=
  if s == REPLICATION then Except.ok (ReplicationFactor.SimpleStrategy 1)
  else
    let trimmed := rust_trim s
    if trimmed.data.head? == some '\x7b' && trimmed.data.getLast? == some '\x7d' then
      match collect_fields (split_str ',' (strip_braces trimmed)) [] with
      | Except.ok fields => dispatch_fields fields
      | Except.error e => Except.error e
    else
      Except.error "not a valid keyspace replication object"

/-! ### Claim-side comparison definitions

Definitions written from the claims' own words, to be compared with the
embedding of the source. -/

/-- The claim's splitting rule for one comma segment: split on the FIRST
colon only, the value being the entire remainder of the segment after that
colon.  Differs from `collect_fields`, which takes only the piece between
the first and second colons. -/
def collect_fields_first_colon : List String → List (String × String) → Except String (List (String × String))
  | [], fields => Except.ok fields
  | value_pair :: rest, fields =>
    match split_str ':' value_pair with
    | k :: v1 :: more =>
      let key := clean_token k
      let value := clean_token (String.intercalate ":" (v1 :: more))
      if (fields.lookup key).isSome then
        Except.error ("replication object duplicates key-value pair " ++ key)
      else
        collect_fields_first_colon rest (fields ++ [(key, value)])
    | _ => Except.error "not a valid key-value pair in keyspace replication object"

/-- `from_str` as the claim describes the segment splitting: identical to
`from_str` except that each segment's value is everything after the first
colon. -/
def from_str_claimed (s : String) : Except String ReplicationFactor :=
  if s == REPLICATION then Except.ok (ReplicationFactor.SimpleStrategy 1)
  else
    let trimmed := rust_trim s
    if trimmed.data.head? == some '\x7b' && trimmed.data.getLast? == some '\x7d' then
      match collect_fields_first_colon (split_str ',' (strip_braces trimmed)) [] with
      | Except.ok fields => dispatch_fields fields
      | Except.error e => Except.error e
    else
      Except.error "not a valid keyspace replication object"

/-- The numeric value denoted by a list of ASCII digit characters. -/
def digits_val (l : List Char) : Nat :=
  l.foldl (fun a c => a * 10 + (c.toNat - 48)) 0

/-- The claim's notion for a SimpleStrategy factor value: a decimal
numeral fitting an unsigned byte, i.e. a nonempty string of ASCII decimal
digits denoting a value at most 255 (no sign allowed). -/
def decimal_numeral_byte (s : String) : Option Nat :=
  if !s.data.isEmpty && s.data.all Char.isDigit then
    if digits_val s.data ≤ 255 then some (digits_val s.data) else none
  else none

/-- The amended notion: a decimal numeral fitting an unsigned byte, after
discarding one optional leading `+` sign. -/
def signed_decimal_numeral_byte (s : String) : Option Nat :=
  match s.data with
  | [] => decimal_numeral_byte s
  | c :: rest =>
    if c == '+' then decimal_numeral_byte (String.mk rest) else decimal_numeral_byte s

/-! ### `src/lib.rs`: defaults and the history-store bootstrap -/

/-- `src/keyspace.rs` lines 12-17: the `KeyspaceOpts` record, a keyspace
name with an optional replication configuration. -/
structure KeyspaceOpts where
  name : String
  replication : Option ReplicationFactor
deriving DecidableEq

/-- `src/keyspace.rs` lines 20-25: `KeyspaceOpts::simple`. -/
def KeyspaceOpts.simple (name : String) (factor : Nat) : KeyspaceOpts :=
  { name := name, replication := some (ReplicationFactor.SimpleStrategy factor) }

/-- `src/lib.rs` line 20: the default history keyspace name. -/
def KEYSPACE : String := "cquill"

/-- `src/lib.rs` line 22: the default history table name. -/
def TABLE : String := "migrated_cql"

/-- `src/lib.rs` lines 24-30: the caller-supplied options relevant to the
engine's pure default resolution (connection options are external I/O and
outside the model). -/
structure MigrateOpts where
  cql_dir : String
  apply_keyspace : String
  history_keyspace : Option KeyspaceOpts
  history_table : Option String

/-- `src/lib.rs` lines 60-62: the history keyspace used by `migrate_cql`,
defaulting to `KeyspaceOpts::simple(KEYSPACE, 1)`. -/
def migrate_cql_history_keyspace (opts : MigrateOpts) : KeyspaceOpts :=
  opts.history_keyspace.getD (KeyspaceOpts.simple KEYSPACE 1)

/-- `src/lib.rs` line 63: the history table used by `migrate_cql`,
defaulting to `TABLE`. -/
def migrate_cql_history_table (opts : MigrateOpts) : String :=
  opts.history_table.getD TABLE

/-- Modelled from the spec: the replication text substituted at the point
of use when no replication override is supplied (the DDL-generating
`queries` module is not among the sources; §6: the canonical default text
"is also the fallback value substituted whenever no replication override
is supplied"). -/
def fallback_replication_text (override : Option String) : String :=
  override.getD REPLICATION

/-- The cluster's schema metadata: each keyspace's name paired with its
table names. -/
structure ClusterState where
  keyspaces : List (String × List String)
deriving DecidableEq

/-- A DDL statement issued by the bootstrap. -/
inductive DdlAction where
  | createKeyspace (name : String)
  | createTable (keyspace table : String)
deriving DecidableEq

/-- Modelled from the spec: `table_names_from_session_metadata` (from the
`queries` module, absent from the sources) lists a keyspace's table names
from session metadata, failing when the keyspace does not exist (§4.3:
"the lookup fails because the keyspace itself does not exist"). -/
def table_names_from_session_metadata (st : ClusterState) (keyspace : String) :
    Except String (List String) :=
  match st.keyspaces.lookup keyspace with
  | some table_names => Except.ok table_names
  | none => Except.error "keyspace not found"

/-- Modelled from the spec: `queries::keyspace::create` (absent from the
sources) creates the keyspace, initially with no tables. -/
def keyspace_create (st : ClusterState) (keyspace : KeyspaceOpts) : ClusterState :=
  { keyspaces := (keyspace.name, []) :: st.keyspaces }

/-- Modelled from the spec: `migrated::table::create` (absent from the
sources) creates the named table inside the named keyspace. -/
def table_create (st : ClusterState) (keyspace table : String) : ClusterState :=
  { keyspaces :=
      st.keyspaces.map (fun p => if p.1 = keyspace then (p.1, table :: p.2) else p) }

/-- `src/lib.rs` lines 80-96: `prepare_cquill_keyspace`, parametrised by
the outcome of the table-name metadata lookup.  On a successful lookup the
table is created exactly when its name is absent; on ANY lookup error the
keyspace is created and then the table unconditionally.  Returns the new
cluster state together with the DDL statements issued. -/
def prepare_cquill_keyspace_with (lookup : Except String (List String)) (st : ClusterState)
    (keyspace : KeyspaceOpts) (table_name : String) : ClusterState × List DdlAction :=
  match lookup with
  | Except.ok table_names =>
    if table_name ∈ table_names then (st, [])
    else
      (table_create st keyspace.name table_name, [DdlAction.createTable keyspace.name table_name])
  | Except.error _ =>
    (table_create (keyspace_create st keyspace) keyspace.name table_name,
      [DdlAction.createKeyspace keyspace.name, DdlAction.createTable keyspace.name table_name])

/-- `src/lib.rs` lines 80-96: `prepare_cquill_keyspace` run against the
cluster state, feeding the lookup's actual outcome to the match above. -/
def prepare_cquill_keyspace (st : ClusterState) (keyspace : KeyspaceOpts)
    (table_name : String) : ClusterState × List DdlAction :=
  prepare_cquill_keyspace_with (table_names_from_session_metadata st keyspace.name)
    st keyspace table_name

/-! ### Modelled from the spec: the migration engine's apply loop

The `migrate` module is not among the sources; §4.5 step 4 and the
partial-failure semantics of §4.5 are modelled here: each pending script's
statements run in order; on success a history record is appended and the
loop continues, on failure the loop stops immediately. -/

/-- A migration script: its sortable identity, content checksum, and the
outcome of each of its statements when executed (`true` = succeeds). -/
structure ScriptFile where
  identity : Nat
  checksum : String
  statements : List Bool
deriving DecidableEq

/-- A history row: identity and checksum of an applied script. -/
structure HistoryRecord where
  identity : Nat
  checksum : String
deriving DecidableEq

/-- A script's execution succeeds exactly when all of its statements
succeed. -/
def script_succeeds (s : ScriptFile) : Bool :=
  s.statements.all (fun b => b)

/-- The history row appended for a successfully applied script. -/
def to_history_record (s : ScriptFile) : HistoryRecord :=
  { identity := s.identity, checksum := s.checksum }

/-- Modelled from the spec: the sequential apply loop over the pending
scripts (§4.5 step 4).  Returns the history records appended this run, the
identities of the scripts attempted, and the identity of the failing
script when one failed. -/
def apply_pending : List ScriptFile → List HistoryRecord × List Nat × Option Nat
  | [] => ([], [], none)
  | s :: rest =>
    if script_succeeds s then
      let r := apply_pending rest
      (to_history_record s :: r.1, s.identity :: r.2.1, r.2.2)
    else
      ([], [s.identity], some s.identity)

/-! ### Auxiliary lemmas -/

/-- The digit fold never decreases its accumulator. -/
lemma digits_fold_le (l : List Char) (acc : Nat) :
    acc ≤ List.foldl (fun a c => a * 10 + (c.toNat - 48)) acc l := by
  induction l generalizing acc with
  | nil => exact Nat.le_refl acc
  | cons c cs ih =>
    have h1 : acc ≤ acc * 10 + (c.toNat - 48) := by omega
    exact Nat.le_trans h1 (ih (acc * 10 + (c.toNat - 48)))

/-- Closed form of the `u8` digit loop: it succeeds exactly on all-digit
input whose accumulated value stays within a byte, returning that value. -/
lemma parse_u8_digits_eq (l : List Char) : ∀ acc : Nat, acc ≤ 255 →
    parse_u8_digits l acc =
      if l.all Char.isDigit && decide (List.foldl (fun a c => a * 10 + (c.toNat - 48)) acc l ≤ 255)
      then some (List.foldl (fun a c => a * 10 + (c.toNat - 48)) acc l)
      else none := by
  induction l with
  | nil =>
    intro acc hacc
    simp [parse_u8_digits, hacc]
  | cons c cs ih =>
    intro acc hacc
    simp only [parse_u8_digits, List.all_cons, List.foldl_cons]
    by_cases hc : c.isDigit = true
    · rw [if_pos hc]
      by_cases hov : acc * 10 + (c.toNat - 48) ≤ 255
      · rw [if_pos hov, ih _ hov]
        simp [hc]
      · rw [if_neg hov]
        have hall : ¬ List.foldl (fun a c => a * 10 + (c.toNat - 48))
            (acc * 10 + (c.toNat - 48)) cs ≤ 255 :=
          fun h => hov (Nat.le_trans (digits_fold_le cs _) h)
        simp [hc, hall]
    · rw [if_neg hc]
      simp [hc]

/-- On nonempty input the claim-side digit-string reading agrees with the
`u8` digit loop. -/
lemma decimal_numeral_byte_eq (l : List Char) (h : ¬ l = []) :
    decimal_numeral_byte (String.mk l) = parse_u8_digits l 0 := by
  rw [parse_u8_digits_eq l 0 (by omega)]
  unfold decimal_numeral_byte digits_val
  by_cases hd : l.all Char.isDigit = true
  · by_cases hv : List.foldl (fun a c => a * 10 + (c.toNat - 48)) 0 l ≤ 255
    · simp [h, hd, hv]
    · simp [h, hd, hv]
  · simp [h, hd]

/-- Rust's `str::parse::<u8>` accepts exactly a decimal numeral fitting a
byte, after one optional leading `+` sign. -/
lemma parse_u8_eq_signed (s : String) : parse_u8 s = signed_decimal_numeral_byte s := by
  obtain ⟨l⟩ := s
  cases l with
  | nil => simp [parse_u8, signed_decimal_numeral_byte, decimal_numeral_byte]
  | cons c rest =>
    by_cases hc : (c == '+') = true
    · cases rest with
      | nil => simp [parse_u8, signed_decimal_numeral_byte, decimal_numeral_byte, hc]
      | cons d ds =>
        simp only [parse_u8, signed_decimal_numeral_byte, hc, if_pos, List.isEmpty_cons]
        rw [decimal_numeral_byte_eq (d :: ds) (by simp)]
        simp
    · simp only [parse_u8, signed_decimal_numeral_byte, hc]
      rw [decimal_numeral_byte_eq (c :: rest) (by simp)]
      simp

/-- Looking up a keyspace after adding a table to it finds the enlarged
table list. -/
lemma lookup_map_add_table (l : List (String × List String)) (name table : String)
    (ts : List String) (h : l.lookup name = some ts) :
    (l.map (fun p => if p.1 = name then (p.1, table :: p.2) else p)).lookup name
      = some (table :: ts) := by
  induction l with
  | nil => simp [List.lookup] at h
  | cons hd tl ih =>
    obtain ⟨k, v⟩ := hd
    by_cases hk : (name == k) = true
    · have hkeq : name = k := eq_of_beq hk
      simp only [List.lookup, hk, if_pos] at h
      simp only [List.map_cons]
      rw [if_pos hkeq.symm]
      simp only [List.lookup, hk, if_pos]
      exact congrArg (fun x => some (table :: x)) (Option.some.inj h)
    · have hkne : ¬ k = name := fun he => hk (beq_iff_eq.mpr he.symm)
      simp only [List.lookup, hk] at h
      simp only [List.map_cons]
      rw [if_neg hkne]
      simp only [List.lookup, hk]
      exact ih h

/-- Closed form of the spec-modelled apply loop: the history records are
those of the longest all-succeeding front of the pending list, the
attempted scripts are that front plus the first failing script when there
is one, and the failing identity is that first failing script's. -/
lemma apply_pending_eq (pending : List ScriptFile) :
    apply_pending pending =
      ((pending.takeWhile script_succeeds).map to_history_record,
       (pending.takeWhile script_succeeds).map ScriptFile.identity
         ++ ((pending.dropWhile script_succeeds).head?.map ScriptFile.identity).toList,
       (pending.dropWhile script_succeeds).head?.map ScriptFile.identity) := by
  induction pending with
  | nil => rfl
  | cons s rest ih =>
    by_cases h : script_succeeds s = true
    · simp [apply_pending, h, List.takeWhile_cons_of_pos, List.dropWhile_cons_of_pos, ih]
    · simp [apply_pending, h, List.takeWhile_cons_of_neg, List.dropWhile_cons_of_neg]

/-! ### The claims -/

/-- C1: during a migration run a history record is written for a script
only after all of that script's statements have fully succeeded, and when
a script's execution fails the engine stops immediately without attempting
any further pending script; no script is ever recorded as applied while
any of its statements failed.  Formally: the records produced by the apply
loop are exactly those of the longest all-succeeding front of the pending
list (so every recorded script fully succeeded), the attempted scripts are
that front plus the first failing script only, and the failing identity is
the first failing script's. -/
theorem claim_C1 (pending : List ScriptFile) :
    (apply_pending pending).1 = (pending.takeWhile script_succeeds).map to_history_record
    ∧ (apply_pending pending).2.1
        = (pending.takeWhile script_succeeds).map ScriptFile.identity
          ++ ((pending.dropWhile script_succeeds).head?.map ScriptFile.identity).toList
    ∧ (apply_pending pending).2.2
        = (pending.dropWhile script_succeeds).head?.map ScriptFile.identity
    ∧ (∀ r ∈ (apply_pending pending).1,
        ∃ s, s ∈ pending ∧ script_succeeds s = true ∧ r = to_history_record s) := by
  have he := apply_pending_eq pending
  refine ⟨by rw [he], by rw [he], by rw [he], ?_⟩
  intro r hr
  rw [he] at hr
  obtain ⟨s, hs, rfl⟩ := List.mem_map.mp hr
  exact ⟨s, List.takeWhile_subset _ hs, List.mem_takeWhile_imp hs, rfl⟩

/-- Witness for C1 on a concrete run: scripts 1 and 3 succeed, script 2's
second statement fails; only script 1 is recorded, scripts 1 and 2 are
attempted, and the run stops reporting identity 2. -/
theorem claim_C1_witness :
    (apply_pending [⟨1, "a", [true, true]⟩, ⟨2, "b", [true, false]⟩, ⟨3, "c", [true]⟩]).1
      = [⟨1, "a"⟩]
    ∧ (apply_pending [⟨1, "a", [true, true]⟩, ⟨2, "b", [true, false]⟩, ⟨3, "c", [true]⟩]).2.1
      = [1, 2]
    ∧ (apply_pending [⟨1, "a", [true, true]⟩, ⟨2, "b", [true, false]⟩, ⟨3, "c", [true]⟩]).2.2
      = some 2 :=
  ⟨((claim_C1 [⟨1, "a", [true, true]⟩, ⟨2, "b", [true, false]⟩, ⟨3, "c", [true]⟩]).1).trans
      (by decide),
   ((claim_C1 [⟨1, "a", [true, true]⟩, ⟨2, "b", [true, false]⟩, ⟨3, "c", [true]⟩]).2.1).trans
      (by decide),
   ((claim_C1 [⟨1, "a", [true, true]⟩, ⟨2, "b", [true, false]⟩, ⟨3, "c", [true]⟩]).2.2.1).trans
      (by decide)⟩

/-- C2: the history-store bootstrap is idempotent.  A second
`prepare_cquill_keyspace` against the cluster state left by the first
issues no DDL; when the lookup succeeds and the table is already present
the call is a no-op; when the lookup succeeds but the table is absent,
exactly the table is created. -/
theorem claim_C2 (st : ClusterState) (keyspace : KeyspaceOpts) (table_name : String) :
    (prepare_cquill_keyspace (prepare_cquill_keyspace st keyspace table_name).1
        keyspace table_name).2 = []
    ∧ (∀ table_names,
        table_names_from_session_metadata st keyspace.name = Except.ok table_names →
        table_name ∈ table_names →
        prepare_cquill_keyspace st keyspace table_name = (st, []))
    ∧ (∀ table_names,
        table_names_from_session_metadata st keyspace.name = Except.ok table_names →
        ¬ table_name ∈ table_names →
        (prepare_cquill_keyspace st keyspace table_name).2
          = [DdlAction.createTable keyspace.name table_name]) := by
  refine ⟨?_, ?_, ?_⟩
  · unfold prepare_cquill_keyspace table_names_from_session_metadata
    cases hl : st.keyspaces.lookup keyspace.name with
    | none =>
      simp only [prepare_cquill_keyspace_with, table_create, keyspace_create, List.map_cons,
        if_pos rfl]
      have hlook : ((keyspace.name, table_name :: ([] : List String)) ::
          (st.keyspaces.map (fun p => if p.1 = keyspace.name then (p.1, table_name :: p.2) else p))).lookup
            keyspace.name = some [table_name] := by
        simp [List.lookup]
      simp [hlook, prepare_cquill_keyspace_with]
    | some ts =>
      by_cases hmem : table_name ∈ ts
      · simp [prepare_cquill_keyspace_with, hmem, hl]
      · simp only [prepare_cquill_keyspace_with, hmem, if_neg, table_create]
        have hlook := lookup_map_add_table st.keyspaces keyspace.name table_name ts hl
        simp [hlook, prepare_cquill_keyspace_with]
  · intro table_names hok hmem
    unfold prepare_cquill_keyspace
    rw [hok]
    simp [prepare_cquill_keyspace_with, hmem]
  · intro table_names hok hmem
    unfold prepare_cquill_keyspace
    rw [hok]
    simp [prepare_cquill_keyspace_with, hmem]

/-- Witness for C2: with the keyspace and table both present, the call is
a no-op; and a full double run from an empty cluster issues DDL only in
the first call. -/
theorem claim_C2_witness :
    prepare_cquill_keyspace ⟨[("cquill", ["migrated_cql"])]⟩
        (KeyspaceOpts.simple "cquill" 1) "migrated_cql"
      = (⟨[("cquill", ["migrated_cql"])]⟩, [])
    ∧ (prepare_cquill_keyspace
        (prepare_cquill_keyspace ⟨[]⟩ (KeyspaceOpts.simple "cquill" 1) "migrated_cql").1
        (KeyspaceOpts.simple "cquill" 1) "migrated_cql").2 = [] :=
  ⟨(claim_C2 ⟨[("cquill", ["migrated_cql"])]⟩ (KeyspaceOpts.simple "cquill" 1)
      "migrated_cql").2.1 ["migrated_cql"] (by decide) (by decide),
   (claim_C2 ⟨[]⟩ (KeyspaceOpts.simple "cquill" 1) "migrated_cql").1⟩

/-- C9: `prepare_cquill_keyspace` treats every failure of the table-name
metadata lookup alike: on any lookup error whatsoever it creates the
keyspace and then unconditionally the history table, without
discriminating between errors, and it behaves exactly as when the keyspace
is genuinely absent from the metadata. -/
theorem claim_C9 (e e' : String) (st : ClusterState) (keyspace : KeyspaceOpts)
    (table_name : String) :
    (prepare_cquill_keyspace_with (Except.error e) st keyspace table_name).2
      = [DdlAction.createKeyspace keyspace.name, DdlAction.createTable keyspace.name table_name]
    ∧ prepare_cquill_keyspace_with (Except.error e) st keyspace table_name
      = prepare_cquill_keyspace_with (Except.error e') st keyspace table_name
    ∧ (prepare_cquill_keyspace_with (Except.error e) st keyspace table_name).1
      = table_create (keyspace_create st keyspace) keyspace.name table_name
    ∧ (st.keyspaces.lookup keyspace.name = none →
        prepare_cquill_keyspace st keyspace table_name
          = prepare_cquill_keyspace_with (Except.error e) st keyspace table_name) := by
  refine ⟨rfl, rfl, rfl, ?_⟩
  intro habs
  unfold prepare_cquill_keyspace table_names_from_session_metadata
  rw [habs]
  rfl

/-- Witness for C9 at a concrete error and cluster state. -/
theorem claim_C9_witness :
    (prepare_cquill_keyspace_with (Except.error "connection reset") ⟨[]⟩
        (KeyspaceOpts.simple "cquill" 1) "migrated_cql").2
      = [DdlAction.createKeyspace "cquill", DdlAction.createTable "cquill" "migrated_cql"]
    ∧ prepare_cquill_keyspace ⟨[]⟩ (KeyspaceOpts.simple "cquill" 1) "migrated_cql"
      = prepare_cquill_keyspace_with (Except.error "connection reset") ⟨[]⟩
          (KeyspaceOpts.simple "cquill" 1) "migrated_cql" :=
  ⟨(claim_C9 "connection reset" "other" ⟨[]⟩ (KeyspaceOpts.simple "cquill" 1)
      "migrated_cql").1,
   (claim_C9 "connection reset" "other" ⟨[]⟩ (KeyspaceOpts.simple "cquill" 1)
      "migrated_cql").2.2.2 (by decide)⟩

/-- C8: when the caller supplies no history keyspace, `migrate_cql` uses
the fixed literal name `cquill` with replication SimpleStrategy factor 1;
when the caller supplies no history table name, it uses the fixed literal
`migrated_cql`. -/
theorem claim_C8 (opts : MigrateOpts) :
    (opts.history_keyspace = none →
      migrate_cql_history_keyspace opts = KeyspaceOpts.simple KEYSPACE 1
      ∧ (migrate_cql_history_keyspace opts).name = "cquill"
      ∧ (migrate_cql_history_keyspace opts).replication
          = some (ReplicationFactor.SimpleStrategy 1))
    ∧ (opts.history_table = none → migrate_cql_history_table opts = "migrated_cql")
    ∧ KEYSPACE = "cquill" ∧ TABLE = "migrated_cql" := by
  refine ⟨?_, ?_, rfl, rfl⟩
  · intro h
    simp [migrate_cql_history_keyspace, h, KeyspaceOpts.simple, KEYSPACE]
  · intro h
    simp [migrate_cql_history_table, h, TABLE]

/-- Witness for C8 at a concrete `MigrateOpts` with both fields absent. -/
theorem claim_C8_witness :
    migrate_cql_history_keyspace ⟨"cql", "apps", none, none⟩ = KeyspaceOpts.simple KEYSPACE 1
    ∧ migrate_cql_history_table ⟨"cql", "apps", none, none⟩ = "migrated_cql" :=
  ⟨((claim_C8 ⟨"cql", "apps", none, none⟩).1 rfl).1,
   (claim_C8 ⟨"cql", "apps", none, none⟩).2.1 rfl⟩

/-- C3: the canonical default replication text parses to SimpleStrategy
with factor 1, its literal is exactly the spec's canonical text, and it is
the fallback substituted when no replication override is supplied (the
engine-side default being SimpleStrategy factor 1 as well). -/
theorem claim_C3 :
    from_str REPLICATION = Except.ok (ReplicationFactor.SimpleStrategy 1)
    ∧ REPLICATION = "\x7b 'class': 'SimpleStrategy', 'replication_factor': 1 \x7d"
    ∧ fallback_replication_text none = REPLICATION
    ∧ (KeyspaceOpts.simple KEYSPACE 1).replication
        = some (ReplicationFactor.SimpleStrategy 1) :=
  ⟨by decide, rfl, rfl, rfl⟩

/-- C10: parsing `\x7b\x7d` yields the key-value-pair error, not the
missing-class error: the empty body splits into exactly one empty comma
segment, whose colon split yields a (empty) key but no value. -/
theorem claim_C10 :
    from_str "\x7b\x7d" = Except.error "not a valid key-value pair in keyspace replication object"
    ∧ from_str "\x7b\x7d" ≠ Except.error "replication object missing class field"
    ∧ split_str ',' (strip_braces (rust_trim "\x7b\x7d")) = [""]
    ∧ (split_str ':' "")[0]? = some ""
    ∧ (split_str ':' "")[1]? = none
    ∧ collect_fields [""] []
        = Except.error "not a valid key-value pair in keyspace replication object" := by
  refine ⟨by decide, by decide, by decide, by decide, by decide, by decide⟩

/-- C4 counterexample: on the input
`\x7b class: SimpleStrategy, replication_factor: 1:9 \x7d` the parser does
NOT take the entire remainder after the first colon as the value.  Were
the claim right, the value would be `1:9` and parsing would fail with
"replication factor 1:9 must be a number" (as `from_str_claimed`, built
from the claim's words, does); the code instead takes only the piece
between the first and second colons, parses `1` and succeeds. -/
theorem claim_C4_counterexample :
    from_str "\x7b class: SimpleStrategy, replication_factor: 1:9 \x7d"
      = Except.ok (ReplicationFactor.SimpleStrategy 1)
    ∧ from_str_claimed "\x7b class: SimpleStrategy, replication_factor: 1:9 \x7d"
      = Except.error "replication factor 1:9 must be a number"
    ∧ from_str "\x7b class: SimpleStrategy, replication_factor: 1:9 \x7d"
      ≠ from_str_claimed "\x7b class: SimpleStrategy, replication_factor: 1:9 \x7d" := by
  refine ⟨by decide, by decide, by decide⟩

/-- C4 as amended: for every brace-wrapped input the parser splits the
body on commas and splits each comma segment on colons, taking the first
piece as the key and the second piece — the text between the first and
second colons — as the value, ignoring any text after a second colon; and
any segment that does not yield both a key and a value (one with no colon
at all) produces the error "not a valid key-value pair in keyspace
replication object". -/
theorem claim_C4_amended (seg : String) (segs : List String)
    (fields : List (String × String)) :
    ((split_str ':' seg).length = 1 →
      collect_fields (seg :: segs) fields
        = Except.error "not a valid key-value pair in keyspace replication object")
    ∧ (∀ k v more, split_str ':' seg = k :: v :: more →
        collect_fields (seg :: segs) fields
          = if (fields.lookup (clean_token k)).isSome then
              Except.error ("replication object duplicates key-value pair " ++ clean_token k)
            else collect_fields segs (fields ++ [(clean_token k, clean_token v)])) := by
  constructor
  · intro hlen
    match hs : split_str ':' seg with
    | [] => rw [hs] at hlen; simp at hlen
    | [k] => simp [collect_fields, hs]
    | k :: v :: more => rw [hs] at hlen; simp at hlen
  · intro k v more hs
    simp [collect_fields, hs]

/-- Witness for C4 as amended: the segment `a:b:c` contributes key `a` and
value `b`, dropping `c`; the segment `ab` (no colon) is the error. -/
theorem claim_C4_amended_witness :
    collect_fields ["a:b:c"] [] = Except.ok [("a", "b")]
    ∧ collect_fields ["ab"] []
      = Except.error "not a valid key-value pair in keyspace replication object" :=
  ⟨((claim_C4_amended "a:b:c" [] []).2 "a" "b" ["c"] (by decide)).trans (by decide),
   (claim_C4_amended "ab" [] []).1 (by decide)⟩

/-- An ASCII digit lies in the Nd table's first range. -/
lemma isDigit_is_unicode_digit (c : Char) (h : c.isDigit = true) :
    is_unicode_digit c = true := by
  simp only [Char.isDigit, Bool.and_eq_true, decide_eq_true_eq] at h
  simp only [is_unicode_digit, nd_ranges, List.any_cons, Bool.or_eq_true,
    Bool.and_eq_true, decide_eq_true_eq]
  exact Or.inl ⟨h.1, h.2⟩

/-- C5 counterexample: the regex crate's `\d` is Unicode-aware, so the
code accepts the datacenter key `٢٢` (two Arabic-Indic digits,
U+0662), which the claim's ASCII pattern `^[a-z0-9_]{2,}$` rejects: a key
can fail the claim's pattern yet be accepted with no invalid-name error,
refuting the claimed "exactly when". -/
theorem claim_C5_counterexample :
    ascii_datacenter_pattern "٢٢" = false
    ∧ DATACENTER_REGEX_match "٢٢" = true
    ∧ datacenter_factors_loop [("٢٢", "3")]
      = Except.ok [("٢٢", 3)]
    ∧ from_str "\x7b'class': 'NetworkTopologyStrategy', '٢٢': 3\x7d"
      = Except.ok (ReplicationFactor.NetworkTopologyStrategy [("٢٢", 3)]) := by
  refine ⟨by decide, by decide, by decide, by decide⟩

/-- C5 as amended: in the NetworkTopologyStrategy branch a datacenter key
is accepted exactly when it has at least two characters, each a lowercase
ASCII letter, a Unicode decimal digit or an underscore — the code's
`^[a-z\d_]{2,}$` with the regex crate's Unicode-aware `\d`
(`DATACENTER_REGEX_match`); any key failing that pattern aborts the loop
with the error "datacenter <name> is not a valid name", so `from_str`
returns that error instead of a ReplicationFactor.  Every key the claim's
ASCII pattern accepts, the code's pattern also accepts. -/
theorem claim_C5_amended (fields : List (String × String)) :
    ((datacenter_factors_loop fields).isOk = true →
      ∀ p ∈ fields, DATACENTER_REGEX_match p.1 = true)
    ∧ ((∀ p ∈ fields, DATACENTER_REGEX_match p.1 = true ∧ (parse_u8 p.2).isSome = true) →
      (datacenter_factors_loop fields).isOk = true)
    ∧ (∀ dc v rest, fields = (dc, v) :: rest → DATACENTER_REGEX_match dc = false →
        datacenter_factors_loop fields
          = Except.error ("datacenter " ++ dc ++ " is not a valid name"))
    ∧ from_str "\x7b'class': 'NetworkTopologyStrategy', 'my datacenter': 3\x7d"
        = Except.error "datacenter my datacenter is not a valid name"
    ∧ (∀ dc : String, ascii_datacenter_pattern dc = true →
        DATACENTER_REGEX_match dc = true) := by
  refine ⟨?_, ?_, ?_, by decide, ?_⟩
  · induction fields with
    | nil => simp
    | cons hd tl ih =>
      obtain ⟨dc, v⟩ := hd
      intro hok p hp
      by_cases hdc : DATACENTER_REGEX_match dc = true
      · cases hpv : parse_u8 v with
        | none =>
          exfalso
          simp [datacenter_factors_loop, hdc, hpv, Except.isOk, Except.toBool] at hok
        | some f =>
          cases hrec : datacenter_factors_loop tl with
          | error e =>
            exfalso
            simp [datacenter_factors_loop, hdc, hpv, hrec, Except.map, Except.isOk,
              Except.toBool] at hok
          | ok dfs =>
            rcases List.mem_cons.mp hp with hphd | hptl
            · subst hphd; exact hdc
            · exact ih (by rw [hrec]; rfl) p hptl
      · exfalso
        simp [datacenter_factors_loop, hdc, Except.isOk, Except.toBool] at hok
  · induction fields with
    | nil => intro _; rfl
    | cons hd tl ih =>
      obtain ⟨dc, v⟩ := hd
      intro hall
      have h1 := hall (dc, v) (List.mem_cons_self _ _)
      have hrec := ih (fun p hp => hall p (List.mem_cons_of_mem _ hp))
      cases hpv : parse_u8 v with
      | none => rw [hpv] at h1; simp at h1
      | some f =>
        cases hr : datacenter_factors_loop tl with
        | error e =>
          rw [hr] at hrec
          simp [Except.isOk, Except.toBool] at hrec
        | ok dfs =>
          simp [datacenter_factors_loop, h1.1, hpv, hr, Except.map, Except.isOk,
            Except.toBool]
  · intro dc v rest hf hdc
    subst hf
    simp [datacenter_factors_loop, hdc]
  · intro dc h
    simp only [ascii_datacenter_pattern, Bool.and_eq_true, decide_eq_true_eq,
      List.all_eq_true] at h
    simp only [DATACENTER_REGEX_match, Bool.and_eq_true, decide_eq_true_eq,
      List.all_eq_true]
    refine ⟨h.1, fun c hc => ?_⟩
    have hch := h.2 c hc
    simp only [Bool.or_eq_true] at hch ⊢
    rcases hch with (h1 | h2) | h3
    · exact Or.inl (Or.inl h1)
    · exact Or.inl (Or.inr (isDigit_is_unicode_digit c h2))
    · exact Or.inr h3

/-- Witness for C5 as amended: `dc1` is accepted (and accepted under the
ASCII pattern too), `my datacenter` aborts the loop with the stated
error. -/
theorem claim_C5_amended_witness :
    (datacenter_factors_loop [("dc1", "3")]).isOk = true
    ∧ datacenter_factors_loop [("my datacenter", "3")]
      = Except.error "datacenter my datacenter is not a valid name"
    ∧ DATACENTER_REGEX_match "dc1" = true :=
  ⟨(claim_C5_amended [("dc1", "3")]).2.1 (by decide),
   (claim_C5_amended [("my datacenter", "3")]).2.2.1 "my datacenter" "3" [] rfl (by decide),
   (claim_C5_amended []).2.2.2.2 "dc1" (by decide)⟩

/-- `class_dispatch` at the literal class `SimpleStrategy`, with its two
string comparisons evaluated. -/
lemma class_dispatch_simple (fields : List (String × String)) :
    class_dispatch "SimpleStrategy" fields =
      match fields.lookup "replication_factor" with
      | some factor_string =>
        match parse_u8 factor_string with
        | some factor => Except.ok (ReplicationFactor.SimpleStrategy factor)
        | none => Except.error ("replication factor " ++ factor_string ++ " must be a number")
      | none => Except.error "replication object missing replication_factor field" := by
  rfl

/-- C6 counterexample: the value `+1` is not a decimal numeral, yet the
SimpleStrategy branch parses it successfully (Rust's `u8::from_str`
accepts one leading `+` sign), so "parses successfully exactly when it is
a decimal numeral fitting an unsigned byte" fails as stated. -/
theorem claim_C6_counterexample :
    decimal_numeral_byte "+1" = none
    ∧ parse_u8 "+1" = some 1
    ∧ from_str "\x7b 'class': 'SimpleStrategy', 'replication_factor': +1 \x7d"
      = Except.ok (ReplicationFactor.SimpleStrategy 1) := by
  refine ⟨by decide, by decide, by decide⟩

/-- C6 as amended: the SimpleStrategy branch requires a
`replication_factor` key, with the error "replication object missing
replication_factor field" when it is absent; when present, the value
parses successfully exactly when — after discarding one optional leading
`+` sign — it is a nonempty string of ASCII decimal digits denoting a
value at most 255, yielding SimpleStrategy with that factor, and otherwise
yields the error "replication factor <value> must be a number". -/
theorem claim_C6_amended (fields : List (String × String)) :
    (fields.lookup "replication_factor" = none →
      class_dispatch "SimpleStrategy" fields
        = Except.error "replication object missing replication_factor field")
    ∧ (∀ v, fields.lookup "replication_factor" = some v →
        (∀ f, class_dispatch "SimpleStrategy" fields
            = Except.ok (ReplicationFactor.SimpleStrategy f)
          ↔ signed_decimal_numeral_byte v = some f)
        ∧ (signed_decimal_numeral_byte v = none →
            class_dispatch "SimpleStrategy" fields
              = Except.error ("replication factor " ++ v ++ " must be a number")))
    ∧ from_str "\x7b'class': 'SimpleStrategy'\x7d"
        = Except.error "replication object missing replication_factor field"
    ∧ from_str "\x7b'class': 'SimpleStrategy', 'replication_factor': 'abc'\x7d"
        = Except.error "replication factor abc must be a number" := by
  refine ⟨?_, ?_, by decide, by decide⟩
  · intro h
    simp only [class_dispatch_simple, h]
  · intro v hv
    have hsv := parse_u8_eq_signed v
    constructor
    · intro f
      constructor
      · intro heq
        simp only [class_dispatch_simple, hv] at heq
        cases hpu : parse_u8 v with
        | some g =>
          rw [hpu] at hsv
          simp only [hpu] at heq
          have hg : g = f :=
            ReplicationFactor.SimpleStrategy.inj (Except.ok.inj heq)
          rw [← hsv, hg]
        | none =>
          simp only [hpu] at heq
          exact Except.noConfusion heq
      · intro hs
        have hpu : parse_u8 v = some f := by rw [hsv]; exact hs
        simp only [class_dispatch_simple, hv, hpu]
    · intro hnone
      have hpu : parse_u8 v = none := by rw [hsv]; exact hnone
      simp only [class_dispatch_simple, hv, hpu]

/-- Witness for C6 as amended: a missing key errs, `2` yields factor 2,
`abc` errs with the stated message. -/
theorem claim_C6_amended_witness :
    class_dispatch "SimpleStrategy" []
      = Except.error "replication object missing replication_factor field"
    ∧ class_dispatch "SimpleStrategy" [("replication_factor", "2")]
      = Except.ok (ReplicationFactor.SimpleStrategy 2)
    ∧ class_dispatch "SimpleStrategy" [("replication_factor", "abc")]
      = Except.error "replication factor abc must be a number" :=
  ⟨(claim_C6_amended []).1 (by decide),
   (((claim_C6_amended [("replication_factor", "2")]).2.1 "2" (by decide)).1 2).mpr (by decide),
   ((claim_C6_amended [("replication_factor", "abc")]).2.1 "abc" (by decide)).2 (by decide)⟩

/-- C7: when a datacenter's factor value does not parse as a `u8`, the
loop returns the error "replication factor <dc> for datacenter <value>
must be a number" — the datacenter name in the first slot and the
offending value in the second, exactly as the code's format string pairs
them, not reordered. -/
theorem claim_C7 (datacenter factor_string : String) (rest : List (String × String))
    (h1 : DATACENTER_REGEX_match datacenter = true)
    (h2 : parse_u8 factor_string = none) :
    datacenter_factors_loop ((datacenter, factor_string) :: rest)
      = Except.error ("replication factor " ++ datacenter ++ " for datacenter "
          ++ factor_string ++ " must be a number")
    ∧ from_str "\x7b'class': 'NetworkTopologyStrategy', 'dc1': 'abc'\x7d"
      = Except.error "replication factor dc1 for datacenter abc must be a number" := by
  refine ⟨?_, by decide⟩
  simp [datacenter_factors_loop, h1, h2]

/-- Witness for C7 at `dc1`/`abc`: the name fills the first slot, the
value the second. -/
theorem claim_C7_witness :
    datacenter_factors_loop [("dc1", "abc")]
      = Except.error "replication factor dc1 for datacenter abc must be a number" :=
  (claim_C7 "dc1" "abc" [] (by decide) (by decide)).1

end Cquill
